import Mathlib

/-!
Verification of the option-group registration engine and constraint policies
of the `click-option-group` repository.

The decorator engine is embedded from `src/click_option_group/_decorators.py`.
The group entity, the constraint policies and the helper error builders live in
`_core.py` and `_helpers.py`, which are not part of the repository's source
files here; those pieces are modelled from the specification and marked as such
in their doc comments.
-/

namespace ClickOptionGroup

/-- Python warning categories that matter here: `warnings.warn(msg, category)`. -/
inductive WarningCategory where
  | userWarning
  | runtimeWarning
  deriving DecidableEq

/-- A warning emitted through `warnings.warn`. -/
structure EmittedWarning where
  message : String
  category : WarningCategory
  deriving DecidableEq

/-- A click parameter recorded on a decorated callback (`__click_params__`),
in application (append) order.  `notAttached` is the `_NotAttachedOption`
placeholder registered by `_OptGroup._add_not_attached_option`; `plain` is a
foreign `click.option`; `grouped` is an option attached to a group when the
group decorator fires. -/
inductive Param where
  | notAttached (optionDecls : List String)
  | plain (decls : List String)
  | grouped (decls : List String)
  deriving DecidableEq

/-- `isinstance(opt, _NotAttachedOption)`. -/
def Param.isNotAttachedOption : Param → Bool
  | .notAttached _ => true
  | _ => false

/-- The declaration strings of a parameter. -/
def Param.declsOf : Param → List String
  | .notAttached ds => ds
  | .plain ds => ds
  | .grouped ds => ds

/-- `_OptGroup._filter_not_attached`: keep only parameters that are not
`_NotAttachedOption` placeholders. -/
def filterNotAttached (options : List Param) : List Param :=
  options.filter (fun opt => !opt.isNotAttachedOption)

/-- `OptionStackItem` from `_decorators.py`: declaration strings, attributes and
the snapshot count of non-placeholder parameters at declaration time. -/
structure OptionStackItem where
  paramDecls : List String
  attrs : List (String × String)
  paramCount : Nat
  deriving DecidableEq

/-- The engine's per-callback state: the callback's recorded click parameters
(in append order), the pending stack entry of `_OptGroup._decorating_state`
(`none` when the callback is not a key of that defaultdict), and the
`_OptGroup._not_attached_options` placeholder list (their declaration strings,
in append order). -/
structure FuncState where
  params : List Param
  pending : Option (List OptionStackItem)
  notAttached : List (List String)
  deriving DecidableEq

/-- A callback that no decorator has touched yet. -/
def FuncState.initial : FuncState :=
  { params := [], pending := none, notAttached := [] }

/-- Python-style rendering of a list of strings, as `str(list)` prints it:
`['--foo', '--bar']`. -/
def pyStrList (xs : List String) : String :=
  "[" ++ String.intercalate ", " (xs.map (fun s => "'" ++ s ++ "'")) ++ "]"

/-- Modelled from the spec: `raise_mixing_decorators_error` is defined in
`_helpers.py`, which is not among the source files.  Per the spec the message is
"Check decorator position for [<decls>] option", suffixed " in '<command>'" when
the command name is known at raise time. -/
def mixingDecoratorsMessage (decls : List String) (cmdName : Option String) : String :=
  "Check decorator position for " ++ pyStrList decls ++ " option" ++
    (match cmdName with
     | some n => " in '" ++ n ++ "'"
     | none => "")

/-- `_OptGroup._check_mixing_decorators`: with a non-empty stack, raise when the
current non-placeholder parameter count exceeds the last pending entry's
recorded count; the error names the last parameter (`params[-1]`), which is the
interleaved foreign option.  Returns `some message` for a raise. -/
def checkMixingDecorators (cmdName : Option String) (optionsStack : List OptionStackItem)
    (params : List Param) : Option String :=
  match optionsStack.getLast? with
  | none => none
  | some lastState =>
    if params.length > lastState.paramCount then
      some (mixingDecoratorsMessage ((params.getLastD (Param.plain [])).declsOf) cmdName)
    else
      none

/-- `_OptGroup.option(*param_decls, **attrs)` applied to a callback in state
`st`: take (or create) the pending stack, filter the placeholder parameters,
run the mixing check, then register a `_NotAttachedOption` placeholder and push
`OptionStackItem(param_decls, attrs, len(params))` with the filtered count.
A raised `TypeError` is the `.error` case. -/
def optionDecorator (cmdName : Option String) (paramDecls : List String)
    (attrs : List (String × String)) (st : FuncState) : Except String FuncState :=
  let optionStack := st.pending.getD []
  let fparams := filterNotAttached st.params
  match checkMixingDecorators cmdName optionStack fparams with
  | some msg => .error msg
  | none =>
    .ok { params := st.params ++ [Param.notAttached paramDecls],
          pending := some (optionStack ++ [⟨paramDecls, attrs, fparams.length⟩]),
          notAttached := st.notAttached ++ [paramDecls] }

/-- A foreign `click.option(*decls)` decorator: appends a plain parameter to the
callback and does not touch the engine's bookkeeping. -/
def clickOptionDecorator (decls : List String) (st : FuncState) : FuncState :=
  { st with params := st.params ++ [Param.plain decls] }

/-- Modelled from the spec: the `OptionGroup` entity of `_core.py`, which is not
among the source files.  It holds the display name, the help text and the
ordered collection of attached options (insertion order); here an attached
option is its declaration strings. -/
structure OptionGroup where
  name : Option String
  help : Option String
  options : List (List String)
  deriving DecidableEq

/-- Modelled from the spec: `OptionGroup.option` of `_core.py` constructs a
grouped option immediately, appends it to the group's ordered `options`
collection and registers it with the framework (appends a parameter to the
decorated callback). -/
def OptionGroup.option (g : OptionGroup) (paramDecls : List String)
    (params : List Param) : OptionGroup × List Param :=
  ({ g with options := g.options ++ [paramDecls] }, params ++ [Param.grouped paramDecls])

/-- Modelled from the spec: an option's destination name, derived from its
declaration string by stripping the leading dashes. -/
def destName (decl : String) : String :=
  ⟨decl.data.dropWhile (fun c => c = '-')⟩

/-- Modelled from the spec: the displayed group name; a nameless group renders
as the parenthesized, pipe-joined destination names of its member options in
declaration order. -/
def OptionGroup.displayName (g : OptionGroup) : String :=
  match g.name with
  | some n =>
    if n = "" then
      "(" ++ String.intercalate "|" (g.options.map (fun ds => destName (ds.headD ""))) ++ ")"
    else n
  | none =>
    "(" ++ String.intercalate "|" (g.options.map (fun ds => destName (ds.headD ""))) ++ ")"

/-- The `cls` argument of the group decorator: the group base type, its policy
subtypes, or a foreign type that is no subclass of `OptionGroup` (the tests use
`object`). -/
inductive GroupCls where
  | optionGroup
  | requiredAnyOptionGroup
  | requiredAllOptionGroup
  | mutuallyExclusiveOptionGroup
  | requiredMutuallyExclusiveOptionGroup
  | foreignObject
  deriving DecidableEq

/-- `issubclass(cls, OptionGroup)`. -/
def GroupCls.isSubclassOfOptionGroup : GroupCls → Bool
  | .foreignObject => false
  | _ => true

/-- `cls.__name__`. -/
def GroupCls.clsName : GroupCls → String
  | .optionGroup => "OptionGroup"
  | .requiredAnyOptionGroup => "RequiredAnyOptionGroup"
  | .requiredAllOptionGroup => "RequiredAllOptionGroup"
  | .mutuallyExclusiveOptionGroup => "MutuallyExclusiveOptionGroup"
  | .requiredMutuallyExclusiveOptionGroup => "RequiredMutuallyExclusiveOptionGroup"
  | .foreignObject => "object"

/-- `if not cls: cls = OptionGroup; elif not issubclass(cls, OptionGroup):
raise TypeError(...)` — the head of `_OptGroup.group`. -/
def groupClsResolve : Option GroupCls → Except String GroupCls
  | none => .ok .optionGroup
  | some c =>
    if c.isSubclassOfOptionGroup then .ok c
    else .error "'cls' must be a subclass of 'OptionGroup' class."

/-- Modelled from the spec: the keyword parameters the `OptionGroup`
constructor of `_core.py` accepts besides the positional name; an unexpected
keyword raises the standard Python constructor `TypeError`. -/
def groupInitKeywords : List String := ["help"]

/-- `cls(name, **attrs)` after `attrs['help'] = help`: `attrKeys` are the
keys of the extra `**attrs` passed to the group decorator, in insertion order;
the decorator adds `help` to them.  An unexpected keyword raises
`TypeError("__init__() got an unexpected keyword argument '<key>'")`. -/
def constructGroup (name : Option String) (help : Option String)
    (attrKeys : List String) : Except String OptionGroup :=
  let allKeys := if attrKeys.contains "help" then attrKeys else attrKeys ++ ["help"]
  match allKeys.find? (fun k => !groupInitKeywords.contains k) with
  | some k => .error ("__init__() got an unexpected keyword argument '" ++ k ++ "'")
  | none => .ok { name := name, help := help, options := [] }

/-- Replace every non-overlapping occurrence of `pat` in the character list,
scanning left to right, as Python's `str.replace` does.  The fuel starts at the
list's length; each step consumes at least one character, so it never runs
out. -/
def replaceCharsAux (pat rep : List Char) : Nat → List Char → List Char
  | 0, cs => cs
  | _ + 1, [] => []
  | fuel + 1, c :: cs =>
    if (c :: cs).take pat.length = pat ∧ pat ≠ [] then
      rep ++ replaceCharsAux pat rep fuel ((c :: cs).drop pat.length)
    else
      c :: replaceCharsAux pat rep fuel cs

/-- Python's `str.replace(pattern, replacement)` for a non-empty pattern. -/
def pyReplace (s pat rep : String) : String :=
  ⟨replaceCharsAux pat.data rep.data s.data.length s.data⟩

/-- Lines 118-120 of `_decorators.py`: a constructor `TypeError` is re-raised
with `__init__()` replaced by `'<cls>' constructor`. -/
def rewriteConstructorError (c : GroupCls) (msg : String) : String :=
  pyReplace msg "__init__()" ("'" ++ c.clsName ++ "' constructor")

/-- Lines 103-106 of `_decorators.py`: the warning message for a group
decorator that found no pending grouped options.  The name part is included
only when `name` is truthy (neither `None` nor the empty string). -/
def emptyGroupWarningMessage (name : Option String) : String :=
  let withName :=
    match name with
    | some n => if n = "" then "" else " \"" ++ n ++ "\""
    | none => ""
  "The empty option group" ++ withName ++ " was found. The group will not be added."

/-- What applying the group decorator to a callback produces: a possible
warning, the callback's new state, and the constructed group if any. -/
structure GroupDecoratorOutcome where
  warning : Option EmittedWarning
  state : FuncState
  group : Option OptionGroup
  deriving DecidableEq

/-- `_OptGroup.group(name, cls=cls, help=help, **attrs)` applied to a callback
in state `st`: resolve `cls`; with no pending stack, warn (`UserWarning`) and
return the function untouched; otherwise pop the stack, remove the placeholder
parameters, re-run the mixing check, construct the group (rewording a
constructor `TypeError`), and attach every pending entry by iterating the stack
in list order (`for item in option_stack`). -/
def groupDecorator (cmdName : Option String) (name : Option String)
    (cls : Option GroupCls) (help : Option String) (attrKeys : List String)
    (st : FuncState) : Except String GroupDecoratorOutcome :=
  match groupClsResolve cls with
  | .error msg => .error msg
  | .ok c =>
    match st.pending with
    | none =>
      .ok { warning := some { message := emptyGroupWarningMessage name,
                              category := .userWarning },
            state := st, group := none }
    | some optionStack =>
      let params := st.params.filter (fun opt => !opt.isNotAttachedOption)
      match checkMixingDecorators cmdName optionStack (filterNotAttached params) with
      | some msg => .error msg
      | none =>
        match constructGroup name help attrKeys with
        | .error msg => .error (rewriteConstructorError c msg)
        | .ok g =>
          let attached := optionStack.foldl
            (fun (acc : OptionGroup × List Param) item => acc.1.option item.paramDecls acc.2)
            (g, params)
          .ok { warning := none,
                state := { params := attached.2, pending := none, notAttached := [] },
                group := some attached.1 }

/-- `_OptGroup.__call__(name, help, cls, **attrs)`: delegates to
`self.group(name, cls=cls, help=help, **attrs)`. -/
def optGroupCall (name : Option String) (help : Option String)
    (cls : Option GroupCls) (attrKeys : List String) (cmdName : Option String)
    (st : FuncState) : Except String GroupDecoratorOutcome :=
  groupDecorator cmdName name cls help attrKeys st

/-- Modelled from the spec: the framework's error hint for an option — its
declaration strings, quoted, joined by " / " (`click.Option(decls).get_error_hint`). -/
def optionErrorHint (decls : List String) : String :=
  String.intercalate " / " (decls.map (fun d => "\"" ++ d ++ "\""))

/-- `_NotAttachedOption._raise_error`: the message lists the callback's
not-attached options in reverse of their append (decorator-fire) order, i.e.
in the original top-to-bottom declaration order. -/
def missingGroupMessage (cmdName : String) (notAttached : List (List String)) : String :=
  let hint := String.intercalate "\n" (notAttached.reverse.map (fun ds => "  " ++ optionErrorHint ds))
  "Missing option group decorator in '" ++ cmdName ++
    "' command for the following grouped options:\n" ++ hint ++ "\n"

/-- The command's final parameter list: click reverses the accumulated
`__click_params__` when the command object is built, so the bottom-most
decorator's parameter comes last. -/
def commandParams (st : FuncState) : List Param :=
  st.params.reverse

/-- `handle_parse_result(ctx, opts, args)` of one parameter during a
parameter-resolution pass: a `_NotAttachedOption` raises the missing-group
error unconditionally (it ignores `opts` and `args`); other parameters
succeed. -/
def handleParseResult (cmdName : String) (notAttached : List (List String))
    (opts : List (String × String)) (p : Param) : Except String Unit :=
  match p with
  | .notAttached _ => .error (missingGroupMessage cmdName notAttached)
  | _ => .ok ()

/-- `get_help_record(ctx)` of one parameter while rendering help: a
`_NotAttachedOption` raises the missing-group error; other parameters yield
their record. -/
def getHelpRecord (cmdName : String) (notAttached : List (List String))
    (p : Param) : Except String Unit :=
  match p with
  | .notAttached _ => .error (missingGroupMessage cmdName notAttached)
  | _ => .ok ()

/-- One parameter-resolution pass over the command: every parameter's
`handle_parse_result` runs with the parsed `opts`.  Nothing is cached: the
state is read-only here, so every invocation repeats the same pass. -/
def invokeCommand (cmdName : String) (opts : List (String × String))
    (st : FuncState) : Except String Unit :=
  (commandParams st).foldlM (fun _ p => handleParseResult cmdName st.notAttached opts p) ()

/-- Rendering the command's help: every parameter's `get_help_record` runs. -/
def renderHelp (cmdName : String) (st : FuncState) : Except String Unit :=
  (commandParams st).foldlM (fun _ p => getHelpRecord cmdName st.notAttached p) ()

/-- Modelled from the spec: a member option of a group as validation sees it —
its destination name (the key of the resolved-value mapping) and its
declaration hint, in group declaration order. -/
structure Member where
  name : String
  decl : String
  deriving DecidableEq

/-- Modelled from the spec: the member options with a present (non-absent)
resolved value, in group declaration order. -/
def presentMembers (members : List Member) (values : String → Option String) : List Member :=
  members.filter (fun m => (values m.name).isSome)

/-- Modelled from the spec: the member options whose resolved value is absent,
in group declaration order. -/
def absentMembers (members : List Member) (values : String → Option String) : List Member :=
  members.filter (fun m => (values m.name).isNone)

/-- Modelled from the spec: the usage errors the constraint policies of
`_core.py` raise, by cause, each carrying the option declaration hints it
lists. -/
inductive UsageError where
  | missingRequiredFrom (groupName : String) (missing : List String)
  | mutuallyExclusiveUsed (present : List String)
  | missingOneRequired (all : List String)
  | missingOneRequiredExclusive (all : List String)
  deriving DecidableEq

/-- Modelled from the spec: the rendered message of each usage error. -/
def UsageError.message : UsageError → String
  | .missingRequiredFrom g missing =>
    "Missing required options from " ++ g ++ ": " ++
      String.intercalate ", " (missing.map (fun d => "\"" ++ d ++ "\""))
  | .mutuallyExclusiveUsed present =>
    "The given mutually exclusive options cannot be used at the same time: " ++
      String.intercalate ", " (present.map (fun d => "\"" ++ d ++ "\""))
  | .missingOneRequired all =>
    "Missing one of the required options: " ++
      String.intercalate " or " (all.map (fun d => "\"" ++ d ++ "\""))
  | .missingOneRequiredExclusive all =>
    "Missing one of the required mutually exclusive options: " ++
      String.intercalate ", " (all.map (fun d => "\"" ++ d ++ "\""))

/-- Modelled from the spec: the framework converts a usage error raised during
post-parse validation into a process exit with status 2; a passing validation
leaves the exit status 0. -/
def exitCode : Except UsageError Unit → Nat
  | .ok _ => 0
  | .error _ => 2

/-- Modelled from the spec: the `RequiredAllOptionGroup` policy of `_core.py`
(not among the source files) — passes iff every member option has a present
value; on failure the error lists only the missing members, in group
declaration order, naming the group. -/
def validateRequiredAll (groupName : String) (members : List Member)
    (values : String → Option String) : Except UsageError Unit :=
  let missing := absentMembers members values
  if missing.isEmpty then .ok ()
  else .error (.missingRequiredFrom groupName (missing.map (fun m => m.decl)))

/-- Modelled from the spec: the `MutuallyExclusiveOptionGroup` policy of
`_core.py` — passes iff at most one member option has a present value; on
failure the error lists exactly the present members, in group declaration
order. -/
def validateMutuallyExclusive (members : List Member)
    (values : String → Option String) : Except UsageError Unit :=
  let present := presentMembers members values
  if present.length ≤ 1 then .ok ()
  else .error (.mutuallyExclusiveUsed (present.map (fun m => m.decl)))

/-- Modelled from the spec: the `RequiredMutuallyExclusiveOptionGroup` policy
of `_core.py` — passes iff exactly one member option has a present value; with
zero present the error asks for one of the required mutually exclusive options
and lists all members; with two or more present it is the mutually-exclusive
failure listing the present ones. -/
def validateRequiredMutuallyExclusive (members : List Member)
    (values : String → Option String) : Except UsageError Unit :=
  let present := presentMembers members values
  if present.length = 0 then
    .error (.missingOneRequiredExclusive (members.map (fun m => m.decl)))
  else if present.length = 1 then .ok ()
  else .error (.mutuallyExclusiveUsed (present.map (fun m => m.decl)))

/-- The callback state after decorating a function that has `bottom` foreign
options below the grouped ones, then the grouped options of `visible` (given
in visible top-to-bottom order, so fired in reverse), and no group decorator:
placeholders for every grouped option survive, the pending stack holds them in
fire order, and every recorded count is the number of foreign options below. -/
def pendingOnlyState (bottom visible : List (List String)) : FuncState :=
  { params := bottom.map Param.plain ++ visible.reverse.map Param.notAttached,
    pending := some (visible.reverse.map (fun d => ⟨d, [], bottom.length⟩)),
    notAttached := visible.reverse }

lemma filterNotAttached_append (xs ys : List Param) :
    filterNotAttached (xs ++ ys) = filterNotAttached xs ++ filterNotAttached ys := by
  simp [filterNotAttached]

lemma filterNotAttached_placeholder (xs : List Param) (d : List String) :
    filterNotAttached (xs ++ [Param.notAttached d]) = filterNotAttached xs := by
  simp [filterNotAttached, Param.isNotAttachedOption]

lemma filterNotAttached_idem (xs : List Param) :
    filterNotAttached (filterNotAttached xs) = filterNotAttached xs := by
  simp [filterNotAttached, List.filter_filter]

lemma filterNotAttached_plains (ds : List (List String)) :
    filterNotAttached (ds.map Param.plain) = ds.map Param.plain := by
  rw [filterNotAttached, List.filter_eq_self]
  intro p hp
  obtain ⟨d, _, rfl⟩ := List.mem_map.mp hp
  rfl

lemma optionDecorator_ok (cmdName : Option String) (d : List String)
    (a : List (String × String)) (st : FuncState) (n : Nat)
    (hp : (filterNotAttached st.params).length = n)
    (hs : ∀ it, (st.pending.getD []).getLast? = some it → it.paramCount = n) :
    optionDecorator cmdName d a st =
      .ok { params := st.params ++ [Param.notAttached d],
            pending := some (st.pending.getD [] ++ [⟨d, a, n⟩]),
            notAttached := st.notAttached ++ [d] } := by
  unfold optionDecorator
  cases hL : (st.pending.getD []).getLast? with
  | none => simp [checkMixingDecorators, hL, hp]
  | some it =>
    have hc := hs it hL
    simp [checkMixingDecorators, hL, hp, hc]

lemma optionDecorator_foldlM_some (cmdName : Option String) (ds : List (List String))
    (stack : List OptionStackItem) (st : FuncState) (n : Nat)
    (hpend : st.pending = some stack)
    (hp : (filterNotAttached st.params).length = n)
    (hs : ∀ it, stack.getLast? = some it → it.paramCount = n) :
    ds.foldlM (fun s d => optionDecorator cmdName d [] s) st =
      .ok { params := st.params ++ ds.map Param.notAttached,
            pending := some (stack ++ ds.map (fun d => ⟨d, [], n⟩)),
            notAttached := st.notAttached ++ ds } := by
  induction ds generalizing st stack with
  | nil =>
    obtain ⟨ps, pd, na⟩ := st
    simp only at hpend
    subst hpend
    simp only [List.foldlM_nil, List.map_nil, List.append_nil]
    rfl
  | cons d ds ih =>
    rw [List.foldlM_cons]
    rw [optionDecorator_ok cmdName d [] st n hp (by simpa [hpend] using hs)]
    show ds.foldlM _ _ = _
    rw [ih (stack ++ [⟨d, [], n⟩])
          { params := st.params ++ [Param.notAttached d],
            pending := some (st.pending.getD [] ++ [⟨d, [], n⟩]),
            notAttached := st.notAttached ++ [d] }
          (by simp [hpend])
          (by rw [filterNotAttached_placeholder]; exact hp)
          (by intro it hit
              rw [List.getLast?_concat] at hit
              injection hit with h1
              subst h1
              rfl)]
    simp [hpend]

lemma optionDecorator_foldlM_fresh (cmdName : Option String) (d : List String)
    (ds : List (List String)) (st : FuncState) (n : Nat)
    (hpend : st.pending = none)
    (hp : (filterNotAttached st.params).length = n) :
    (d :: ds).foldlM (fun s e => optionDecorator cmdName e [] s) st =
      .ok { params := st.params ++ (d :: ds).map Param.notAttached,
            pending := some ((d :: ds).map (fun e => ⟨e, [], n⟩)),
            notAttached := st.notAttached ++ (d :: ds) } := by
  rw [List.foldlM_cons]
  rw [optionDecorator_ok cmdName d [] st n hp (by rw [hpend]; simp)]
  show ds.foldlM _ _ = _
  rw [optionDecorator_foldlM_some cmdName ds [⟨d, [], n⟩]
        { params := st.params ++ [Param.notAttached d],
          pending := some (st.pending.getD [] ++ [⟨d, [], n⟩]),
          notAttached := st.notAttached ++ [d] } n
        (by simp [hpend])
        (by rw [filterNotAttached_placeholder]; exact hp)
        (by intro it hit
            simp at hit
            subst hit
            rfl)]
  simp

lemma clickOption_foldl (ds : List (List String)) (st : FuncState) :
    ds.foldl (fun s d => clickOptionDecorator d s) st =
      { st with params := st.params ++ ds.map Param.plain } := by
  induction ds generalizing st with
  | nil => simp
  | cons d ds ih =>
    rw [List.foldl_cons, ih]
    simp [clickOptionDecorator]

lemma handleParseResult_foldlM (cmdName : String) (na : List (List String))
    (opts : List (String × String)) (l : List Param) :
    l.foldlM (fun _ p => handleParseResult cmdName na opts p) () =
      (if l.any Param.isNotAttachedOption then
        Except.error (missingGroupMessage cmdName na)
      else Except.ok ()) := by
  induction l with
  | nil => rfl
  | cons p l ih =>
    rw [List.foldlM_cons]
    cases p with
    | notAttached d => rfl
    | plain d =>
      show l.foldlM _ _ = _
      rw [ih]
      simp [Param.isNotAttachedOption]
    | grouped d =>
      show l.foldlM _ _ = _
      rw [ih]
      simp [Param.isNotAttachedOption]

lemma getHelpRecord_foldlM (cmdName : String) (na : List (List String))
    (l : List Param) :
    l.foldlM (fun _ p => getHelpRecord cmdName na p) () =
      (if l.any Param.isNotAttachedOption then
        Except.error (missingGroupMessage cmdName na)
      else Except.ok ()) := by
  induction l with
  | nil => rfl
  | cons p l ih =>
    rw [List.foldlM_cons]
    cases p with
    | notAttached d => rfl
    | plain d =>
      show l.foldlM _ _ = _
      rw [ih]
      simp [Param.isNotAttachedOption]
    | grouped d =>
      show l.foldlM _ _ = _
      rw [ih]
      simp [Param.isNotAttachedOption]

lemma absentMembers_eq_nil_iff (members : List Member) (values : String → Option String) :
    absentMembers members values = [] ↔ ∀ m ∈ members, (values m.name).isSome := by
  unfold absentMembers
  rw [List.filter_eq_nil_iff]
  constructor
  · intro h m hm
    have := h m hm
    simpa [Option.isNone_iff_eq_none, Option.isSome_iff_ne_none] using this
  · intro h m hm
    have := h m hm
    simpa [Option.isNone_iff_eq_none, Option.isSome_iff_ne_none] using this

/-- C4: for every group with the RequireAll policy and every resolved-value
mapping, validation passes iff every member option has a present value; on
failure the usage error names exactly the absent members, in group declaration
order, its message is prefixed "Missing required options from" naming the
group, and the framework exit status is 2. -/
theorem requiredAll_validation_spec (g : String) (members : List Member)
    (values : String → Option String) :
    (validateRequiredAll g members values = .ok () ↔
      ∀ m ∈ members, (values m.name).isSome)
    ∧ (∀ e, validateRequiredAll g members values = .error e →
        e = UsageError.missingRequiredFrom g
              ((absentMembers members values).map (fun m => m.decl))
        ∧ e.message = "Missing required options from " ++ g ++ ": " ++
            String.intercalate ", "
              ((absentMembers members values).map (fun m => "\"" ++ m.decl ++ "\""))
        ∧ exitCode (validateRequiredAll g members values) = 2) := by
  unfold validateRequiredAll
  by_cases h : (absentMembers members values).isEmpty
  · rw [List.isEmpty_iff] at h
    constructor
    · rw [if_pos (by simp [h])]
      exact iff_of_true rfl ((absentMembers_eq_nil_iff members values).mp h)
    · intro e he
      simp [h] at he
  · rw [List.isEmpty_iff] at h
    have hne : ¬((absentMembers members values).isEmpty = true) := by
      simpa [List.isEmpty_iff] using h
    constructor
    · rw [if_neg hne]
      constructor
      · intro hcontra
        exact absurd hcontra (by simp)
      · intro hall
        exact absurd ((absentMembers_eq_nil_iff members values).mpr hall) h
    · intro e he
      rw [if_neg hne] at he
      injection he with h1
      subst h1
      refine ⟨rfl, ?_, ?_⟩
      · simp [UsageError.message, List.map_map, Function.comp_def]
      · simp [exitCode, h]

/-- C5: for every group with the MutuallyExclusive policy and every
resolved-value mapping, validation passes iff at most one member option has a
present value (zero passes); on failure the usage error lists exactly the
present members, in group declaration order, with the mutually-exclusive
message. -/
theorem mutuallyExclusive_validation_spec (members : List Member)
    (values : String → Option String) :
    (validateMutuallyExclusive members values = .ok () ↔
      (presentMembers members values).length ≤ 1)
    ∧ (∀ e, validateMutuallyExclusive members values = .error e →
        e = UsageError.mutuallyExclusiveUsed
              ((presentMembers members values).map (fun m => m.decl))
        ∧ e.message = "The given mutually exclusive options cannot be used at the same time: " ++
            String.intercalate ", "
              ((presentMembers members values).map (fun m => "\"" ++ m.decl ++ "\""))) := by
  unfold validateMutuallyExclusive
  by_cases h : (presentMembers members values).length ≤ 1
  · constructor
    · simp [h]
    · intro e he
      simp [h] at he
  · constructor
    · simp [h]
    · intro e he
      simp only [h, if_false] at he
      injection he with h1
      subst h1
      exact ⟨rfl, by simp [UsageError.message, List.map_map, Function.comp_def]⟩

/-- C6: for every group with the RequireMutuallyExclusive policy and every
resolved-value mapping, validation passes iff exactly one member option has a
present value; with zero present the error asks for one of the required
mutually exclusive options and lists all members; with two or more present it
is the mutually-exclusive failure listing the present ones. -/
theorem requiredMutuallyExclusive_validation_spec (members : List Member)
    (values : String → Option String) :
    (validateRequiredMutuallyExclusive members values = .ok () ↔
      (presentMembers members values).length = 1)
    ∧ ((presentMembers members values).length = 0 →
        validateRequiredMutuallyExclusive members values =
          .error (.missingOneRequiredExclusive (members.map (fun m => m.decl)))
        ∧ (UsageError.missingOneRequiredExclusive (members.map (fun m => m.decl))).message =
            "Missing one of the required mutually exclusive options: " ++
              String.intercalate ", " (members.map (fun m => "\"" ++ m.decl ++ "\"")))
    ∧ (2 ≤ (presentMembers members values).length →
        validateRequiredMutuallyExclusive members values =
          .error (.mutuallyExclusiveUsed
            ((presentMembers members values).map (fun m => m.decl)))) := by
  unfold validateRequiredMutuallyExclusive
  refine ⟨?_, ?_, ?_⟩
  · by_cases h0 : (presentMembers members values).length = 0
    · simp [h0]
    · by_cases h1 : (presentMembers members values).length = 1
      · simp [h0, h1]
      · simp [h0, h1]
  · intro h0
    refine ⟨by simp [h0], ?_⟩
    simp [UsageError.message, List.map_map, Function.comp_def]
  · intro h2
    have h0 : ¬(presentMembers members values).length = 0 := by omega
    have h1 : ¬(presentMembers members values).length = 1 := by omega
    simp [h0, h1]

/-- C1: evaluation of the empty-group path at the scenario of
`test_missing_grouped_options_decl_first_api` — applying the group decorator
"Group 1" to a callback with no pending grouped options returns the function
untouched, creates no group, and emits a warning saying the empty option group
will not be added; the warning's category, however, is `UserWarning`, which is
not the `RuntimeWarning` the claim and the repository's test require. -/
theorem emptyGroup_warning_userWarning_eval :
    groupDecorator none (some "Group 1") none none []
        { params := [Param.plain ["--hello2"]], pending := none, notAttached := [] } =
      .ok { warning := some
              { message := "The empty option group \"Group 1\" was found. The group will not be added.",
                category := .userWarning },
            state := { params := [Param.plain ["--hello2"]], pending := none,
                       notAttached := [] },
            group := none }
    ∧ WarningCategory.userWarning ≠ WarningCategory.runtimeWarning :=
  ⟨rfl, by decide⟩

/-- C2: for a command whose grouped-option decorators (listed top-to-bottom in
`visible`, with foreign options `bottom` below them and `top` above them) are
never closed by a group decorator, every parameter-resolution pass — help
rendering and every invocation with any parsed arguments — raises the error
prefixed "Missing option group decorator in '<command>' command for the
following grouped options:" listing every orphaned option's declaration
strings in original top-to-bottom declaration order. -/
theorem missingGroup_error_on_help_and_every_invocation
    (cmdName : String) (bottom visible top : List (List String))
    (opts : List (String × String)) (hv : visible ≠ []) :
    visible.reverse.foldlM (fun s d => optionDecorator none d [] s)
        (bottom.foldl (fun s d => clickOptionDecorator d s) FuncState.initial) =
      .ok (pendingOnlyState bottom visible)
    ∧ invokeCommand cmdName opts
        (top.foldl (fun s d => clickOptionDecorator d s) (pendingOnlyState bottom visible)) =
      .error (missingGroupMessage cmdName visible.reverse)
    ∧ renderHelp cmdName
        (top.foldl (fun s d => clickOptionDecorator d s) (pendingOnlyState bottom visible)) =
      .error (missingGroupMessage cmdName visible.reverse)
    ∧ missingGroupMessage cmdName visible.reverse =
        "Missing option group decorator in '" ++ cmdName ++
          "' command for the following grouped options:\n" ++
          String.intercalate "\n" (visible.map (fun ds => "  " ++ optionErrorHint ds)) ++
          "\n" := by
  obtain ⟨d, ds, hvr⟩ : ∃ d ds, visible.reverse = d :: ds := by
    cases hvr : visible.reverse with
    | nil =>
      exact absurd (by simpa using congrArg List.reverse hvr) hv
    | cons d ds => exact ⟨d, ds, rfl⟩
  have hst0 : bottom.foldl (fun s d => clickOptionDecorator d s) FuncState.initial =
      { params := bottom.map Param.plain, pending := none, notAttached := [] } := by
    rw [clickOption_foldl]
    simp [FuncState.initial]
  have hmem : Param.notAttached d ∈
      ((pendingOnlyState bottom visible).params ++ top.map Param.plain).reverse := by
    rw [List.mem_reverse]
    apply List.mem_append_left
    apply List.mem_append_right
    rw [hvr]
    exact List.mem_map_of_mem _ (List.mem_cons_self d ds)
  refine ⟨?_, ?_, ?_, ?_⟩
  · rw [hst0, hvr]
    rw [optionDecorator_foldlM_fresh none d ds _ bottom.length rfl
         (by rw [filterNotAttached_plains]; simp)]
    simp [pendingOnlyState, hvr]
  · rw [clickOption_foldl]
    unfold invokeCommand commandParams
    rw [handleParseResult_foldlM]
    rw [if_pos (List.any_eq_true.mpr ⟨_, hmem, rfl⟩)]
    rfl
  · rw [clickOption_foldl]
    unfold renderHelp commandParams
    rw [getHelpRecord_foldlM]
    rw [if_pos (List.any_eq_true.mpr ⟨_, hmem, rfl⟩)]
    rfl
  · unfold missingGroupMessage
    rw [List.reverse_reverse]

/-- Witness for the missing-group claim at the scenario of
`test_missing_group_decl_first_api`. -/
theorem missingGroup_error_witness :
    invokeCommand "cli" []
        (List.foldl (fun s d => clickOptionDecorator d s)
          (pendingOnlyState [["--hello2"]] [["--foo"], ["--bar"]]) [["--hello1"]]) =
      .error (missingGroupMessage "cli" [["--bar"], ["--foo"]]) := by
  have h := (missingGroup_error_on_help_and_every_invocation "cli" [["--hello2"]]
    [["--foo"], ["--bar"]] [["--hello1"]] [] (by decide)).2.1
  exact h

/-- C3: for a callback whose pending stack is non-empty, a grouped-option
decorator raises the mis-ordering `TypeError` exactly when the current
non-placeholder parameter count exceeds the last pending entry's recorded
count, with message "Check decorator position for [<decls>] option" naming the
foreign option's declaration strings, suffixed " in '<command>'" when the
command name is known; otherwise the new entry is appended to the pending
stack with the current filtered parameter count.  The group decorator's final
re-check raises the same error under the same condition. -/
theorem mixing_decorators_check_spec (cmdName : Option String) (decls : List String)
    (attrs : List (String × String)) (st : FuncState) (lastItem : OptionStackItem)
    (hlast : (st.pending.getD []).getLast? = some lastItem) :
    ((filterNotAttached st.params).length > lastItem.paramCount →
      optionDecorator cmdName decls attrs st =
        .error (mixingDecoratorsMessage
          ((filterNotAttached st.params).getLastD (Param.plain [])).declsOf cmdName))
    ∧ (¬(filterNotAttached st.params).length > lastItem.paramCount →
      optionDecorator cmdName decls attrs st =
        .ok { params := st.params ++ [Param.notAttached decls],
              pending := some (st.pending.getD [] ++
                [⟨decls, attrs, (filterNotAttached st.params).length⟩]),
              notAttached := st.notAttached ++ [decls] })
    ∧ (∀ ds c, mixingDecoratorsMessage ds (some c) =
        "Check decorator position for " ++ pyStrList ds ++ " option in '" ++ c ++ "'")
    ∧ (∀ ds, mixingDecoratorsMessage ds none =
        "Check decorator position for " ++ pyStrList ds ++ " option")
    ∧ ((filterNotAttached st.params).length > lastItem.paramCount →
      ∀ name help, groupDecorator cmdName name none help [] st =
        .error (mixingDecoratorsMessage
          ((filterNotAttached st.params).getLastD (Param.plain [])).declsOf cmdName)) := by
  refine ⟨?_, ?_, ?_, ?_, ?_⟩
  · intro hgt
    unfold optionDecorator
    simp [checkMixingDecorators, hlast, hgt]
  · intro hle
    unfold optionDecorator
    simp [checkMixingDecorators, hlast, hle]
  · intro ds c
    unfold mixingDecoratorsMessage
    simp only [String.append_assoc]
    rw [← String.append_assoc " option" " in '" (c ++ "'")]
    rfl
  · intro ds
    unfold mixingDecoratorsMessage
    rw [String.append_empty]
  · intro hgt name help
    cases hpd : st.pending with
    | none => rw [hpd] at hlast; simp at hlast
    | some stack =>
      have hlast' : stack.getLast? = some lastItem := by
        rw [hpd] at hlast; simpa using hlast
      unfold groupDecorator
      rw [hpd]
      have hfp : st.params.filter (fun opt => !opt.isNotAttachedOption) =
          filterNotAttached st.params := rfl
      simp only [groupClsResolve, hfp, filterNotAttached_idem]
      simp [checkMixingDecorators, hlast', hgt]

/-- Witness for the mis-ordering claim at the scenario of
`test_mix_decl_first_api`: a foreign `--hello` between the grouped `--bar` and
`--foo`. -/
theorem mixing_decorators_witness :
    optionDecorator none ["--foo"] []
        { params := [Param.notAttached ["--bar"], Param.plain ["--hello"]],
          pending := some [⟨["--bar"], [], 0⟩], notAttached := [["--bar"]] } =
      .error "Check decorator position for ['--hello'] option" := by
  have h := (mixing_decorators_check_spec none ["--foo"] []
    { params := [Param.notAttached ["--bar"], Param.plain ["--hello"]],
      pending := some [⟨["--bar"], [], 0⟩], notAttached := [["--bar"]] }
    ⟨["--bar"], [], 0⟩ (by decide)).1 (by decide)
  rw [h]
  rfl

/-- C7: evaluation of the declarative registration at the scenario of
`test_default_group_name` — the visible decorator list declares `--foo` above
`--bar`, the decorators fire bottom-up (`--bar` first), and the group decorator
iterates the pending stack in stack order, so the constructed group's ordered
options collection comes out `[--bar, --foo]`, the reverse of the visible
top-to-bottom order, and the default display name renders as "(bar|foo)" where
the repository's test expects "(foo|bar)". -/
theorem group_attaches_in_stack_order_eval :
    (optionDecorator none ["--bar"] [] FuncState.initial >>=
        (fun st => optionDecorator none ["--foo"] [] st) >>=
        (fun st => groupDecorator none none none none [] st)) =
      .ok { warning := none,
            state := { params := [Param.grouped ["--bar"], Param.grouped ["--foo"]],
                       pending := none, notAttached := [] },
            group := some { name := none, help := none,
                            options := [["--bar"], ["--foo"]] } }
    ∧ OptionGroup.displayName
        { name := none, help := none, options := [["--bar"], ["--foo"]] } = "(bar|foo)"
    ∧ "(bar|foo)" ≠ "(foo|bar)" :=
  ⟨rfl, by decide, by decide⟩

/-- C8: a `cls` that is no subclass of `OptionGroup` raises the
construction-time `TypeError` "'cls' must be a subclass of 'OptionGroup'
class."; and when the group constructor rejects an unexpected keyword
attribute, the re-raised `TypeError` message is the constructor's with
`__init__()` replaced by "'<cls>' constructor", as the concrete `oops`
scenario of `test_option_group_unexpected_arguments` shows. -/
theorem group_cls_and_constructor_error_spec (cmdName name help : Option String)
    (attrKeys : List String) (st : FuncState) :
    (∀ c : GroupCls, c.isSubclassOfOptionGroup = false →
      groupDecorator cmdName name (some c) help attrKeys st =
        .error "'cls' must be a subclass of 'OptionGroup' class.")
    ∧ (∀ (c : GroupCls) (stack : List OptionStackItem) (k : String),
        c.isSubclassOfOptionGroup = true →
        st.pending = some stack →
        checkMixingDecorators cmdName stack
          (filterNotAttached (st.params.filter (fun opt => !opt.isNotAttachedOption))) =
          none →
        ((if attrKeys.contains "help" then attrKeys else attrKeys ++ ["help"]).find?
            (fun x => !groupInitKeywords.contains x)) = some k →
        groupDecorator cmdName name (some c) help attrKeys st =
          .error (rewriteConstructorError c
            ("__init__() got an unexpected keyword argument '" ++ k ++ "'")))
    ∧ rewriteConstructorError GroupCls.optionGroup
        "__init__() got an unexpected keyword argument 'oops'" =
      "'OptionGroup' constructor got an unexpected keyword argument 'oops'"
    ∧ groupDecorator none none none none ["oops"]
        { params := [Param.notAttached ["--foo"]],
          pending := some [⟨["--foo"], [], 0⟩], notAttached := [["--foo"]] } =
      .error "'OptionGroup' constructor got an unexpected keyword argument 'oops'" := by
  refine ⟨?_, ?_, by decide, by rfl⟩
  · intro c hc
    unfold groupDecorator
    simp [groupClsResolve, hc]
  · intro c stack k hc hpd hchk hfind
    unfold groupDecorator
    simp only [groupClsResolve, hc, if_true]
    rw [hpd]
    simp only [hchk]
    unfold constructGroup
    simp only [hfind]

/-- C9: calling the option-group manager object directly (`__call__`) is the
same decorator as calling its `group` method with the same arguments: both
produce identical outcomes on every callback state. -/
theorem call_delegates_to_group (name help : Option String) (cls : Option GroupCls)
    (attrKeys : List String) (cmdName : Option String) (st : FuncState) :
    optGroupCall name help cls attrKeys cmdName st =
      groupDecorator cmdName name cls help attrKeys st :=
  rfl

/-- C10: with an empty pending stack the mis-ordering branch is unreachable —
the first grouped-option decorator applied to a callback never raises the
mis-ordering `TypeError`, no matter how many foreign option decorators were
applied to that callback beforehand (any `st.params`). -/
theorem first_grouped_option_decorator_never_raises (cmdName : Option String)
    (decls : List String) (attrs : List (String × String)) (st : FuncState)
    (hempty : st.pending.getD [] = []) :
    optionDecorator cmdName decls attrs st =
      .ok { params := st.params ++ [Param.notAttached decls],
            pending := some [⟨decls, attrs, (filterNotAttached st.params).length⟩],
            notAttached := st.notAttached ++ [decls] } := by
  have h := optionDecorator_ok cmdName decls attrs st
    (filterNotAttached st.params).length rfl
    (by intro it hit; rw [hempty] at hit; simp at hit)
  rw [h, hempty]
  simp

/-- Witness for the empty-stack claim: the first grouped-option decorator after
three foreign options raises nothing. -/
theorem first_grouped_option_witness :
    optionDecorator none ["--foo"] []
        { params := [Param.plain ["--a"], Param.plain ["--b"], Param.plain ["--c"]],
          pending := none, notAttached := [] } =
      .ok { params := [Param.plain ["--a"], Param.plain ["--b"], Param.plain ["--c"],
                       Param.notAttached ["--foo"]],
            pending := some [⟨["--foo"], [], 3⟩],
            notAttached := [["--foo"]] } := by
  have h := first_grouped_option_decorator_never_raises none ["--foo"] []
    { params := [Param.plain ["--a"], Param.plain ["--b"], Param.plain ["--c"]],
      pending := none, notAttached := [] } (by decide)
  rw [h]
  rfl

end ClickOptionGroup
